import Mathlib

/-!
Verification of the render-event tracking and notification pipeline of the
`laststance/re-render` repository.

The embedding translates, from the TypeScript source:
  - `src/types/render.ts`           : `RenderReason`, `ChangedValue`, `RenderInfo`, `TrackableDeps`
  - `src/hooks/useRenderTracker.ts` : value differ (`getChangedKeys`, `getChangedValues`),
                                      reason classifier (`determineRenderReason`), and the
                                      per-unit tracker state machine (render phase, effect
                                      phase, debounced dispatch, cascade-window close)
  - `src/store/toastSlice.ts`       : `addToast`, `addBatchToast` and the toast queue
  - the `recordRender` listener-middleware effect (debounced batching dispatcher)
  - the renderTracker slice reducers (`recordRender`, `beginSuppressToasts`,
    `endSuppressToasts`) in both shipped variants.

JavaScript values observed by the differ are modelled by `Val`: primitives carry
their contents, while objects, arrays and functions carry only a reference
identity, so that equality on `Val` coincides with JavaScript `Object.is` on the
modelled fragment (reference identity for heap values, value identity for
primitives).  Event ids and timestamps (`Date.now()`, random ids) are supplied
by the environment as `Nat` parameters.
-/

namespace ReRender

/-- Reason why a component re-rendered (`src/types/render.ts`). -/
inductive RenderReason where
  | initial
  | propsChange
  | stateChange
  | contextChange
  | parentRerender
  | forceUpdate
deriving DecidableEq, Repr

/-- Kind of heap reference, used only so that `getValueType` can distinguish
functions, arrays and plain objects as the source does with `typeof`. -/
inductive RefKind where
  | rFunction
  | rArray
  | rObject
deriving DecidableEq, Repr

/-- A JavaScript value as observed by the tracker.  Primitives are carried by
value; functions, arrays and objects are carried by reference identity (`id`),
so `Val` equality is JavaScript `Object.is` on this fragment. -/
inductive Val where
  | vUndefined
  | vNull
  | vBool (b : Bool)
  | vNum (n : Int)
  | vStr (s : String)
  | vRef (id : Nat) (kind : RefKind)
deriving DecidableEq, Repr

/-- Display category of a changed value (`ChangedValue.valueType`). -/
inductive ValueType where
  | primitive
  | object
  | array
  | function
  | undefinedT
deriving DecidableEq, Repr

/-- A single changed value with before/after display strings
(`src/types/render.ts`, `ChangedValue`). -/
structure ChangedValue where
  key : String
  previousValue : String
  currentValue : String
  valueType : ValueType
deriving DecidableEq, Repr

/-- A tracked snapshot (a JavaScript record): keys in insertion order with
their values.  Object literals have distinct keys; the operations below do not
depend on that. -/
def Snapshot : Type := List (String × Val)

instance : DecidableEq Snapshot :=
  inferInstanceAs (DecidableEq (List (String × Val)))

instance : Repr Snapshot :=
  inferInstanceAs (Repr (List (String × Val)))

/-- Keys of a snapshot, in insertion order (`Object.keys`). -/
def keysOf (o : Snapshot) : List String := o.map Prod.fst

/-- Property read `o[k]`: the value stored at `k`, or `undefined` when the key
is absent (JavaScript member access on a missing key yields `undefined`). -/
def getV (o : Snapshot) (k : String) : Val :=
  match o.find? (fun p => p.fst == k) with
  | some p => p.snd
  | none => Val.vUndefined

/-- First-occurrence deduplication, as performed by
`new Set([...keys1, ...keys2])` iterated in insertion order. -/
def setDedupAux (seen : List String) : List String → List String
  | [] => []
  | k :: rest =>
      if k ∈ seen then setDedupAux seen rest
      else k :: setDedupAux (k :: seen) rest

def setDedup (l : List String) : List String := setDedupAux [] l

/-- Determine the type category of a value for display purposes
(`getValueType` in `useRenderTracker.ts`). -/
def getValueType (value : Val) : ValueType :=
  match value with
  | .vUndefined => .undefinedT
  | .vNull => .primitive
  | .vRef _ .rFunction => .function
  | .vRef _ .rArray => .array
  | .vRef _ .rObject => .object
  | .vBool _ => .primitive
  | .vNum _ => .primitive
  | .vStr _ => .primitive

/-- Serialize a value to a display string (`serializeValue`).  Reference
values carry no printable structure in the model, so their display is an
opaque marker; no claim depends on display strings. -/
def serializeValue (value : Val) (maxLength : Nat) : String :=
  match value with
  | .vUndefined => "undefined"
  | .vNull => "null"
  | .vRef id .rFunction => "f ref" ++ toString id ++ "()"
  | .vStr s =>
      let truncated := if s.length > maxLength then s.take maxLength ++ "…" else s
      "\"" ++ truncated ++ "\""
  | .vNum n => toString n
  | .vBool b => toString b
  | .vRef id .rArray => "[ref " ++ toString id ++ "]"
  | .vRef id .rObject => "\x7bref " ++ toString id ++ "\x7d"

/-- Shallow compare two objects and return the keys that differ
(`getChangedKeys`).  An absent side yields the empty list; comparison is
`Object.is` per key over the union of both key sets. -/
def getChangedKeys (prev current : Option Snapshot) : List String :=
  match prev, current with
  | some p, some c =>
      let allKeys := setDedup (keysOf p ++ keysOf c)
      allKeys.filter (fun key => getV p key != getV c key)
  | _, _ => []

/-- Get detailed changes with previous/current values (`getChangedValues`). -/
def getChangedValues (prev current : Option Snapshot) : List ChangedValue :=
  match prev, current with
  | some p, some c =>
      let allKeys := setDedup (keysOf p ++ keysOf c)
      (allKeys.filter (fun key => getV p key != getV c key)).map (fun key =>
        { key := key
          previousValue := serializeValue (getV p key) 50
          currentValue := serializeValue (getV c key) 50
          valueType := getValueType (getV c key) })
  | _, _ => []

/-- Determine why a component re-rendered based on dependency changes
(`determineRenderReason`).  The source takes `forceUpdate` as an optional
parameter; an omitted argument is falsy, which the model renders as passing
`false`. -/
def determineRenderReason (isInitialRender : Bool)
    (changedProps changedState : List String) (forceUpdate : Bool) : RenderReason :=
  if isInitialRender then .initial
  else if forceUpdate then .forceUpdate
  else if changedState.length > 0 then .stateChange
  else if changedProps.length > 0 then .propsChange
  else .parentRerender

/-- Information about a single render event (`RenderInfo` in
`src/types/render.ts`).  The source omits the list fields when empty; the
model carries `[]` for absence. -/
structure RenderInfo where
  id : Nat
  componentName : String
  renderCount : Nat
  reason : RenderReason
  timestamp : Nat
  changedProps : List String
  changedState : List String
  propChanges : List ChangedValue
  stateChanges : List ChangedValue
deriving DecidableEq, Repr

/-- Dependencies that can be tracked for re-render detection
(`TrackableDeps`). -/
structure TrackableDeps where
  props : Option Snapshot
  state : Option Snapshot
deriving DecidableEq, Repr

/-- The change lists captured together with the committed reason
(`committedChangesRef` contents in `useRenderTracker.ts`). -/
structure Changes where
  changedProps : List String
  changedState : List String
  propChanges : List ChangedValue
  stateChanges : List ChangedValue
deriving DecidableEq, Repr

/-- Per-unit tracker state: the refs held by one `useRenderTracker` instance
(`renderCountRef`, `meaningfulCountRef`, `prevDepsRef`, `pendingInfoRef`,
`timerRef` as a Boolean presence, `dispatchInFlightRef`, `committedReasonRef`,
`committedChangesRef`). -/
structure TrackerState where
  renderCount : Nat
  meaningfulCount : Nat
  prevDeps : Option TrackableDeps
  pendingInfo : Option RenderInfo
  timerActive : Bool
  dispatchInFlight : Bool
  committedReason : Option RenderReason
  committedChanges : Option Changes
deriving DecidableEq, Repr

/-- State of a freshly mounted tracker (all refs at their initial values). -/
def trackerInit : TrackerState :=
  { renderCount := 0
    meaningfulCount := 0
    prevDeps := none
    pendingInfo := none
    timerActive := false
    dispatchInFlight := false
    committedReason := none
    committedChanges := none }

/-- The raw classification an invocation computes before the committed-reason
fix is applied: the `rawReason` local of the render body.  The source calls
`determineRenderReason` without the `forceUpdate` argument. -/
def rawReasonOf (s : TrackerState) (deps : Option TrackableDeps) : RenderReason :=
  determineRenderReason (s.renderCount + 1 == 1)
    (getChangedKeys (s.prevDeps.bind TrackableDeps.props) (deps.bind TrackableDeps.props))
    (getChangedKeys (s.prevDeps.bind TrackableDeps.state) (deps.bind TrackableDeps.state))
    false

/-- The render-phase body of `useRenderTracker`: counts the invocation, diffs
the snapshots, classifies, applies the committed-reason overwrite rule,
advances `prevDepsRef` and builds the `renderInfo` object.  `eid` and `ts`
stand for the environment-supplied event id and `Date.now()` timestamp. -/
def renderPhase (componentName : String) (deps : Option TrackableDeps)
    (eid ts : Nat) (s : TrackerState) : TrackerState × RenderInfo :=
  let renderCount := s.renderCount + 1
  let isInitialRender := renderCount == 1
  let changedProps :=
    getChangedKeys (s.prevDeps.bind TrackableDeps.props) (deps.bind TrackableDeps.props)
  let changedState :=
    getChangedKeys (s.prevDeps.bind TrackableDeps.state) (deps.bind TrackableDeps.state)
  let propChanges :=
    getChangedValues (s.prevDeps.bind TrackableDeps.props) (deps.bind TrackableDeps.props)
  let stateChanges :=
    getChangedValues (s.prevDeps.bind TrackableDeps.state) (deps.bind TrackableDeps.state)
  let rawReason := determineRenderReason isInitialRender changedProps changedState false
  let freshChanges : Changes :=
    { changedProps := changedProps, changedState := changedState
      propChanges := propChanges, stateChanges := stateChanges }
  let commit := rawReason != RenderReason.parentRerender || s.committedReason.isNone
  let committedReason := if commit then some rawReason else s.committedReason
  let committedChanges := if commit then some freshChanges else s.committedChanges
  let reason := committedReason.getD rawReason
  let changes := committedChanges.getD freshChanges
  let info : RenderInfo :=
    { id := eid
      componentName := componentName
      renderCount := s.meaningfulCount
      reason := reason
      timestamp := ts
      changedProps := changes.changedProps
      changedState := changes.changedState
      propChanges := changes.propChanges
      stateChanges := changes.stateChanges }
  ({ s with
      renderCount := renderCount
      prevDeps := deps
      committedReason := committedReason
      committedChanges := committedChanges }, info)

/-- The `useEffect` body of `useRenderTracker` for the committed render whose
`renderInfo` is `info`: skip cascade renders while a dispatch is in flight;
otherwise store the pending info, reset the committed reason, reset the
debounce timer and mark the dispatch in flight. -/
def effectPhase (s : TrackerState) (info : RenderInfo) : TrackerState :=
  if s.dispatchInFlight && info.reason == RenderReason.parentRerender then s
  else
    { s with
        pendingInfo := some info
        committedReason := none
        committedChanges := none
        timerActive := true
        dispatchInFlight := true }

/-- The outer `setTimeout` callback: if an info is pending, increment the
meaningful count, stamp it into the event and dispatch it (the returned
`Option RenderInfo` is the `recordRender` dispatch). -/
def timerFire (s : TrackerState) : TrackerState × Option RenderInfo :=
  match s.pendingInfo with
  | some info =>
      let meaningfulCount := s.meaningfulCount + 1
      let stamped := { info with renderCount := meaningfulCount }
      ({ s with
          timerActive := false
          meaningfulCount := meaningfulCount
          pendingInfo := none }, some stamped)
  | none => ({ s with timerActive := false }, none)

/-- The inner `setTimeout` callback: the synchronous cascade caused by the
dispatch has been absorbed, so the in-flight flag clears. -/
def cascadeWindowClose (s : TrackerState) : TrackerState :=
  { s with dispatchInFlight := false }

/-- One scheduling-level step of a tracker instance.  `invoke` is one render
followed by its effect; `strictInvoke` is the double-invocation of one logical
update (two render calls, then the single effect of the committed render);
`flushTimer` is the debounce-timer expiry; `closeCascadeWindow` clears the
in-flight flag one tick after a dispatch fired. -/
inductive TrackerStep where
  | invoke (deps : Option TrackableDeps) (eid ts : Nat)
  | strictInvoke (deps : Option TrackableDeps) (eid1 ts1 eid2 ts2 : Nat)
  | flushTimer
  | closeCascadeWindow
deriving Repr

/-- Execute one step; the returned list holds the events dispatched to the
store during this step (at most one). -/
def trackerStep (name : String) (s : TrackerState) :
    TrackerStep → TrackerState × List RenderInfo
  | .invoke deps eid ts =>
      let r := renderPhase name deps eid ts s
      (effectPhase r.fst r.snd, [])
  | .strictInvoke deps eid1 ts1 eid2 ts2 =>
      let r1 := renderPhase name deps eid1 ts1 s
      let r2 := renderPhase name deps eid2 ts2 r1.fst
      (effectPhase r2.fst r2.snd, [])
  | .flushTimer =>
      let r := timerFire s
      (r.fst, r.snd.toList)
  | .closeCascadeWindow => (cascadeWindowClose s, [])

/-- Run a sequence of steps, collecting all dispatched events in order. -/
def trackerRun (name : String) (s : TrackerState) :
    List TrackerStep → TrackerState × List RenderInfo
  | [] => (s, [])
  | st :: rest =>
      let r := trackerStep name s st
      let r2 := trackerRun name r.fst rest
      (r2.fst, r.snd ++ r2.snd)

/-- Modelled from the spec: `REASON_PRIORITY` is imported by `toastSlice.ts`
from `data/renderReasonLabels`, a module whose source is not part of the
provided tree.  The spec fixes the priority order as `initial` (highest, i.e.
smallest rank) > `forced-update` > `internal-change` (state) >
`external-input-change` (props) > `cascade-from-parent` (lowest).  The spec
does not place `context-change` (which exists only in the source enum); the
model ranks it between props-change and parent-rerender, a choice no theorem
below depends on. -/
def REASON_PRIORITY (r : RenderReason) : Nat :=
  match r with
  | .initial => 0
  | .forceUpdate => 1
  | .stateChange => 2
  | .propsChange => 3
  | .contextChange => 4
  | .parentRerender => 5

/-- The comparator `(a, b) => REASON_PRIORITY[a.reason] - REASON_PRIORITY[b.reason]`
of `addBatchToast`, as a relation. -/
def reasonLE (a b : RenderInfo) : Prop :=
  REASON_PRIORITY a.reason ≤ REASON_PRIORITY b.reason

instance : DecidableRel reasonLE := fun a b =>
  inferInstanceAs (Decidable (REASON_PRIORITY a.reason ≤ REASON_PRIORITY b.reason))

instance : IsTotal RenderInfo reasonLE :=
  ⟨fun a b => Nat.le_total (REASON_PRIORITY a.reason) (REASON_PRIORITY b.reason)⟩

instance : IsTrans RenderInfo reasonLE :=
  ⟨fun _ _ _ hab hbc => Nat.le_trans hab hbc⟩

/-- `[...renders].sort((a, b) => REASON_PRIORITY[a.reason] - REASON_PRIORITY[b.reason])`:
JavaScript `Array.prototype.sort` is a stable sort by the comparator's total
preorder, which insertion sort realizes extensionally. -/
def sortByPriority (renders : List RenderInfo) : List RenderInfo :=
  List.insertionSort reasonLE renders

/-- Toast notification for re-render event(s) (`toastSlice.ts`). -/
structure Toast where
  tid : String
  renderInfo : RenderInfo
  batchRenders : Option (List RenderInfo)
  isExpanded : Bool
  createdAt : Nat
deriving DecidableEq, Repr

/-- State of the toast queue (`ToastState`). -/
structure ToastState where
  toasts : List Toast
  maxToasts : Nat
deriving DecidableEq, Repr

def toastInit : ToastState :=
  { toasts := [], maxToasts := 10 }

/-- Prepend a toast and truncate to `maxToasts` (`unshift` followed by
`slice(0, maxToasts)` when over the limit). -/
def pushToast (t : Toast) (s : ToastState) : ToastState :=
  let ts := t :: s.toasts
  if ts.length > s.maxToasts then { s with toasts := ts.take s.maxToasts }
  else { s with toasts := ts }

/-- Add a single toast notification for a re-render event (`addToast`);
`now` is `Date.now()`. -/
def addToast (now : Nat) (info : RenderInfo) (s : ToastState) : ToastState :=
  pushToast
    { tid := "toast-" ++ toString info.id
      renderInfo := info
      batchRenders := none
      isExpanded := false
      createdAt := now } s

/-- Placeholder event, only used as the `headD` default on a branch that the
source never reaches (`sorted[0]` is evaluated only for non-empty batches). -/
def defaultRenderInfo : RenderInfo :=
  { id := 0, componentName := "", renderCount := 0, reason := .initial
    timestamp := 0, changedProps := [], changedState := []
    propChanges := [], stateChanges := [] }

/-- The `newToast` object built by `addBatchToast` for a non-empty batch. -/
def mkBatchToast (now : Nat) (renders : List RenderInfo) : Toast :=
  let sorted := sortByPriority renders
  { tid := "toast-batch-" ++ toString now
    renderInfo := sorted.headD defaultRenderInfo
    batchRenders := some sorted
    isExpanded := false
    createdAt := now }

/-- Add a batch toast consolidating multiple re-render events
(`addBatchToast`): sort by reason priority so the root cause is the primary
info, keep the sorted batch, prepend and truncate.  An empty payload is a
no-op. -/
def addBatchToast (now : Nat) (renders : List RenderInfo) (s : ToastState) : ToastState :=
  if renders.isEmpty then s
  else pushToast (mkBatchToast now renders) s

/-- Remove a toast by ID (`removeToast`). -/
def removeToast (tid : String) (s : ToastState) : ToastState :=
  { s with toasts := s.toasts.filter (fun t => t.tid != tid) }

/-- Clear all toasts (`clearAllToasts`). -/
def clearAllToasts (s : ToastState) : ToastState :=
  { s with toasts := [] }

/-- State of the batching dispatcher: the module-level `buffer` and
`flushTimer` of the `recordRender` listener middleware, the global
`suppressToasts` flag it reads from the store, and the toast queue it
dispatches into. -/
structure BusState where
  buffer : List RenderInfo
  timerActive : Bool
  suppress : Bool
  toastState : ToastState
deriving DecidableEq, Repr

def busInit : BusState :=
  { buffer := [], timerActive := false, suppress := false, toastState := toastInit }

/-- The listener effect run on each `recordRender` action: skip initial
renders and suppressed toasts; otherwise buffer the event and reset the
debounce timer. -/
def recordRenderEffect (info : RenderInfo) (s : BusState) : BusState :=
  if info.reason == RenderReason.initial || s.suppress then s
  else { s with buffer := s.buffer ++ [info], timerActive := true }

/-- The debounce-timer callback: drain the buffer, re-check suppression at
flush time, then dispatch `addToast` for a single event or `addBatchToast`
for two or more; `now` is `Date.now()` at flush time. -/
def flushEffect (now : Nat) (s : BusState) : BusState :=
  let batch := s.buffer
  let s1 := { s with buffer := ([] : List RenderInfo), timerActive := false }
  if s1.suppress then s1
  else
    match batch with
    | [] => s1
    | [e] => { s1 with toastState := addToast now e s1.toastState }
    | es => { s1 with toastState := addBatchToast now es s1.toastState }

/-- Observable operations on the dispatcher and its surroundings: event
arrival, window expiry, the suppression gate actions, and the toast-queue
mutations reachable from the UI. -/
inductive BusStep where
  | record (info : RenderInfo)
  | flush (now : Nat)
  | beginSuppress
  | endSuppress
  | remove (tid : String)
  | clearToasts
deriving Repr

def busStep (s : BusState) : BusStep → BusState
  | .record info => recordRenderEffect info s
  | .flush now => flushEffect now s
  | .beginSuppress => { s with suppress := true }
  | .endSuppress => { s with suppress := false }
  | .remove tid => { s with toastState := removeToast tid s.toastState }
  | .clearToasts => { s with toastState := clearAllToasts s.toastState }

def busRun (s : BusState) : List BusStep → BusState
  | [] => s
  | st :: rest => busRun (busStep s st) rest

/-- Per-reason counters: `Partial<Record<RenderReason, number>>`. -/
def ReasonCounts : Type := RenderReason → Option Nat

/-- Redux slice state of the render tracker (`RenderTrackerState` in the
current store variant, with `suppressToasts`; the records are modelled as
partial maps). -/
structure SliceState where
  renderHistory : String → Option (List RenderInfo)
  renderCounts : String → Option Nat
  renderCountsByReason : String → Option ReasonCounts
  lastRender : Option RenderInfo
  suppressToasts : Bool

namespace SliceA

/-- `recordRender` of the store variant without `lastRender` gating (the
variant whose state has no `lastRender`; the model leaves that field alone):
push to history keeping the last 100 events, set the render count, bump the
per-reason count.  `suppressToasts` is not consulted. -/
def recordRender (info : RenderInfo) (s : SliceState) : SliceState :=
  let name := info.componentName
  let hist := (s.renderHistory name).getD []
  let pushed := hist ++ [info]
  let trimmed := if pushed.length > 100 then pushed.tail else pushed
  let counts := (s.renderCountsByReason name).getD (fun _ => none)
  let bumped : ReasonCounts := fun r =>
    if r = info.reason then some ((counts info.reason).getD 0 + 1) else counts r
  { s with
      renderHistory := fun n => if n = name then some trimmed else s.renderHistory n
      renderCounts := fun n => if n = name then some info.renderCount else s.renderCounts n
      renderCountsByReason := fun n =>
        if n = name then some bumped else s.renderCountsByReason n }

end SliceA

namespace SliceB

/-- `recordRender` of the `lastRender`-gated store variant: identical
recording of history and counters, and `lastRender` is updated only while
`suppressToasts` is off. -/
def recordRender (info : RenderInfo) (s : SliceState) : SliceState :=
  let s1 := SliceA.recordRender info s
  if !s.suppressToasts then { s1 with lastRender := some info } else s1

end SliceB

/-- `beginSuppressToasts`. -/
def beginSuppressToasts (s : SliceState) : SliceState :=
  { s with suppressToasts := true }

/-- `endSuppressToasts`. -/
def endSuppressToasts (s : SliceState) : SliceState :=
  { s with suppressToasts := false }

/-! ## Helper lemmas -/

theorem mem_setDedupAux (k : String) :
    ∀ (l seen : List String), k ∈ setDedupAux seen l ↔ (k ∈ l ∧ k ∉ seen) := by
  intro l
  induction l with
  | nil => intro seen; simp [setDedupAux]
  | cons a rest ih =>
      intro seen
      by_cases ha : a ∈ seen
      · rw [setDedupAux, if_pos ha, ih]
        constructor
        · rintro ⟨hk, hks⟩
          exact ⟨List.mem_cons_of_mem _ hk, hks⟩
        · rintro ⟨hk, hks⟩
          rcases List.mem_cons.mp hk with rfl | hk
          · exact absurd ha hks
          · exact ⟨hk, hks⟩
      · rw [setDedupAux, if_neg ha]
        constructor
        · intro h
          rcases List.mem_cons.mp h with rfl | h2
          · exact ⟨List.mem_cons_self _ _, ha⟩
          · have h3 := (ih (a :: seen)).mp h2
            exact ⟨List.mem_cons_of_mem _ h3.1,
              fun hs => h3.2 (List.mem_cons_of_mem _ hs)⟩
        · rintro ⟨hk, hks⟩
          rcases List.mem_cons.mp hk with rfl | hk2
          · exact List.mem_cons_self _ _
          · by_cases hak : k = a
            · subst hak
              exact List.mem_cons_self _ _
            · refine List.mem_cons_of_mem _ ((ih (a :: seen)).mpr ⟨hk2, ?_⟩)
              intro hs
              rcases List.mem_cons.mp hs with h1 | h1
              · exact hak h1
              · exact hks h1

theorem mem_setDedup {k : String} {l : List String} : k ∈ setDedup l ↔ k ∈ l := by
  unfold setDedup
  rw [mem_setDedupAux]
  simp

theorem getChangedKeys_refl (o : Option Snapshot) : getChangedKeys o o = [] := by
  cases o with
  | none => rfl
  | some p =>
      simp only [getChangedKeys]
      apply List.filter_eq_nil_iff.mpr
      intro k _
      simp [bne_self_eq_false]

/-! ## Claims -/

/-- C7: the value differ reports a key as changed iff the key's values on the
two sides are not identical under `Object.is`, quantified over the union of
both key sets; if either snapshot is absent it returns the empty change set,
and the detailed change list covers exactly the changed keys. -/
theorem differ_changed_iff_not_identical :
    (∀ (p c : Snapshot) (k : String),
      k ∈ getChangedKeys (some p) (some c) ↔
        ((k ∈ keysOf p ∨ k ∈ keysOf c) ∧ getV p k ≠ getV c k)) ∧
    (∀ c : Option Snapshot, getChangedKeys none c = []) ∧
    (∀ p : Option Snapshot, getChangedKeys p none = []) ∧
    (∀ c : Option Snapshot, getChangedValues none c = []) ∧
    (∀ p : Option Snapshot, getChangedValues p none = []) ∧
    (∀ p c : Option Snapshot,
      (getChangedValues p c).map ChangedValue.key = getChangedKeys p c) := by
  refine ⟨?_, ?_, ?_, ?_, ?_, ?_⟩
  · intro p c k
    simp only [getChangedKeys, List.mem_filter, mem_setDedup, List.mem_append,
      bne_iff_ne, ne_eq, decide_not, Bool.not_eq_eq_eq_not, Bool.not_true,
      decide_eq_false_iff_not]
  · intro c
    cases c with
    | none => rfl
    | some c0 => rfl
  · intro p
    cases p with
    | none => rfl
    | some p0 => rfl
  · intro c
    cases c with
    | none => rfl
    | some c0 => rfl
  · intro p
    cases p with
    | none => rfl
    | some p0 => rfl
  · intro p c
    cases p with
    | none =>
        cases c with
        | none => rfl
        | some c0 => rfl
    | some p0 =>
        cases c with
        | none => rfl
        | some c0 =>
            simp only [getChangedValues, getChangedKeys, List.map_map]
            generalize List.filter (fun key => getV p0 key != getV c0 key)
              (setDedup (keysOf p0 ++ keysOf c0)) = L
            induction L with
            | nil => rfl
            | cons a t ih =>
                simp only [List.map_cons, Function.comp_apply]
                rw [ih]

/-- C4: the reason classifier returns exactly the first match of the fixed
precedence order initial, forced-update, internal (state) change, external
(props) change, cascade-from-parent, and always returns a reason. -/
theorem classifier_first_match :
    ∀ (isInitialRender forceUpdate : Bool) (changedProps changedState : List String),
      (isInitialRender = true →
        determineRenderReason isInitialRender changedProps changedState forceUpdate
          = .initial) ∧
      (isInitialRender = false → forceUpdate = true →
        determineRenderReason isInitialRender changedProps changedState forceUpdate
          = .forceUpdate) ∧
      (isInitialRender = false → forceUpdate = false → changedState ≠ [] →
        determineRenderReason isInitialRender changedProps changedState forceUpdate
          = .stateChange) ∧
      (isInitialRender = false → forceUpdate = false → changedState = [] →
        changedProps ≠ [] →
        determineRenderReason isInitialRender changedProps changedState forceUpdate
          = .propsChange) ∧
      (isInitialRender = false → forceUpdate = false → changedState = [] →
        changedProps = [] →
        determineRenderReason isInitialRender changedProps changedState forceUpdate
          = .parentRerender) := by
  intro i f cp cs
  refine ⟨?_, ?_, ?_, ?_, ?_⟩ <;> intros <;>
    simp_all [determineRenderReason, List.length_pos]

/-- Witness for `classifier_first_match` at a concrete input. -/
theorem classifier_first_match_witness :
    ((false = false) ∧ (false = false) ∧ (["count"] : List String) ≠ []) ∧
      determineRenderReason false ["p"] ["count"] false = .stateChange :=
  ⟨⟨rfl, rfl, by decide⟩,
    (classifier_first_match false false ["p"] ["count"]).2.2.1 rfl rfl (by decide)⟩

/-! ## Reason-absence invariant of the tracker -/

theorem determineRenderReason_ne_context (i f : Bool) (cp cs : List String) :
    determineRenderReason i cp cs f ≠ .contextChange := by
  rcases i <;> rcases f <;> rcases cp <;> rcases cs <;> simp [determineRenderReason]

theorem determineRenderReason_false_ne_force (i : Bool) (cp cs : List String) :
    determineRenderReason i cp cs false ≠ .forceUpdate := by
  rcases i <;> rcases cp <;> rcases cs <;> simp [determineRenderReason]

/-- The classifier invoked the way the entry point invokes it (no `forceUpdate`
argument) never yields `force-update`, and never yields `context-change`. -/
theorem rawReasonOf_ne_force (s : TrackerState) (d : Option TrackableDeps) :
    rawReasonOf s d ≠ .forceUpdate :=
  determineRenderReason_false_ne_force _ _ _

theorem rawReasonOf_ne_context (s : TrackerState) (d : Option TrackableDeps) :
    rawReasonOf s d ≠ .contextChange :=
  determineRenderReason_ne_context _ _ _ _

theorem renderPhase_committedReason (name : String) (deps : Option TrackableDeps)
    (eid ts : Nat) (s : TrackerState) :
    (renderPhase name deps eid ts s).fst.committedReason =
      if rawReasonOf s deps != RenderReason.parentRerender || s.committedReason.isNone
      then some (rawReasonOf s deps) else s.committedReason := rfl

theorem renderPhase_reason (name : String) (deps : Option TrackableDeps)
    (eid ts : Nat) (s : TrackerState) :
    (renderPhase name deps eid ts s).snd.reason =
      ((renderPhase name deps eid ts s).fst.committedReason).getD (rawReasonOf s deps) := rfl

theorem renderPhase_committedReason_isSome (name : String) (deps : Option TrackableDeps)
    (eid ts : Nat) (s : TrackerState) :
    (renderPhase name deps eid ts s).fst.committedReason.isSome := by
  rw [renderPhase_committedReason]
  by_cases h : rawReasonOf s deps != RenderReason.parentRerender || s.committedReason.isNone
  · simp [h]
  · rw [if_neg h]
    rcases Bool.or_eq_false_iff.mp (Bool.eq_false_iff.mpr h) with ⟨_, h2⟩
    simp [Option.isSome_iff_ne_none]
    intro hn
    rw [hn] at h2
    simp at h2

/-- A reason `r` appears neither as the committed reason nor on the pending
event of a tracker state. -/
def reasonAbsent (r : RenderReason) (s : TrackerState) : Prop :=
  (∀ x, s.committedReason = some x → x ≠ r) ∧
  (∀ i, s.pendingInfo = some i → i.reason ≠ r)

theorem renderPhase_reasonAbsent {r : RenderReason}
    (hraw : ∀ s d, rawReasonOf s d ≠ r)
    (name : String) (deps : Option TrackableDeps) (eid ts : Nat) {s : TrackerState}
    (h : reasonAbsent r s) :
    reasonAbsent r (renderPhase name deps eid ts s).fst ∧
      (renderPhase name deps eid ts s).snd.reason ≠ r := by
  have hc : ∀ x, (renderPhase name deps eid ts s).fst.committedReason = some x → x ≠ r := by
    intro x hx
    rw [renderPhase_committedReason] at hx
    by_cases hb : rawReasonOf s deps != RenderReason.parentRerender || s.committedReason.isNone
    · rw [if_pos hb] at hx
      cases hx
      exact hraw s deps
    · rw [if_neg hb] at hx
      exact h.1 x hx
  have hpend : (renderPhase name deps eid ts s).fst.pendingInfo = s.pendingInfo := rfl
  refine ⟨⟨hc, ?_⟩, ?_⟩
  · intro i hi
    rw [hpend] at hi
    exact h.2 i hi
  · rw [renderPhase_reason]
    rcases Option.isSome_iff_exists.mp
      (renderPhase_committedReason_isSome name deps eid ts s) with ⟨x, hx⟩
    rw [hx]
    exact hc x hx

theorem effectPhase_reasonAbsent {r : RenderReason} {s : TrackerState} {info : RenderInfo}
    (h : reasonAbsent r s) (hinfo : info.reason ≠ r) :
    reasonAbsent r (effectPhase s info) := by
  unfold effectPhase
  by_cases hb : s.dispatchInFlight && (info.reason == RenderReason.parentRerender)
  · rw [if_pos hb]
    exact h
  · rw [if_neg hb]
    refine ⟨fun x hx => ?_, fun i hi => ?_⟩
    · cases hx
    · cases hi
      exact hinfo

theorem timerFire_none {s : TrackerState} (hp : s.pendingInfo = none) :
    timerFire s = ({ s with timerActive := false }, none) := by
  unfold timerFire
  rw [hp]

theorem timerFire_some {s : TrackerState} {info : RenderInfo}
    (hp : s.pendingInfo = some info) :
    timerFire s =
      ({ s with
          timerActive := false
          meaningfulCount := s.meaningfulCount + 1
          pendingInfo := none },
        some { info with renderCount := s.meaningfulCount + 1 }) := by
  unfold timerFire
  rw [hp]

theorem timerFire_reasonAbsent {r : RenderReason} {s : TrackerState}
    (h : reasonAbsent r s) :
    reasonAbsent r (timerFire s).fst ∧ ∀ e ∈ (timerFire s).snd.toList, e.reason ≠ r := by
  cases hp : s.pendingInfo with
  | none =>
      rw [timerFire_none hp]
      refine ⟨⟨fun x hx => h.1 x hx, fun i hi => ?_⟩, by simp⟩
      rw [show ({ s with timerActive := false } : TrackerState).pendingInfo
        = s.pendingInfo from rfl, hp] at hi
      cases hi
  | some info =>
      rw [timerFire_some hp]
      refine ⟨⟨fun x hx => h.1 x hx, fun i hi => ?_⟩, ?_⟩
      · cases hi
      · intro e he
        simp only [Option.toList_some, List.mem_singleton] at he
        subst he
        exact h.2 info hp

theorem trackerStep_reasonAbsent {r : RenderReason}
    (hraw : ∀ s d, rawReasonOf s d ≠ r)
    (name : String) {s : TrackerState} (st : TrackerStep)
    (h : reasonAbsent r s) :
    reasonAbsent r (trackerStep name s st).fst ∧
      ∀ e ∈ (trackerStep name s st).snd, e.reason ≠ r := by
  cases st with
  | invoke deps eid ts =>
      have h1 := renderPhase_reasonAbsent hraw name deps eid ts h
      exact ⟨effectPhase_reasonAbsent h1.1 h1.2, by simp [trackerStep]⟩
  | strictInvoke deps eid1 ts1 eid2 ts2 =>
      have h1 := renderPhase_reasonAbsent hraw name deps eid1 ts1 h
      have h2 := renderPhase_reasonAbsent hraw name deps eid2 ts2 h1.1
      exact ⟨effectPhase_reasonAbsent h2.1 h2.2, by simp [trackerStep]⟩
  | flushTimer =>
      have h1 := timerFire_reasonAbsent (s := s) h
      exact ⟨h1.1, h1.2⟩
  | closeCascadeWindow =>
      refine ⟨⟨fun x hx => h.1 x hx, fun i hi => h.2 i hi⟩, by simp [trackerStep]⟩

theorem trackerRun_reasonAbsent {r : RenderReason}
    (hraw : ∀ s d, rawReasonOf s d ≠ r) (name : String) :
    ∀ (steps : List TrackerStep) (s : TrackerState), reasonAbsent r s →
      reasonAbsent r (trackerRun name s steps).fst ∧
        ∀ e ∈ (trackerRun name s steps).snd, e.reason ≠ r := by
  intro steps
  induction steps with
  | nil => intro s h; exact ⟨h, by simp [trackerRun]⟩
  | cons st rest ih =>
      intro s h
      have h1 := trackerStep_reasonAbsent hraw name st h
      have h2 := ih (trackerStep name s st).fst h1.1
      refine ⟨h2.1, ?_⟩
      intro e he
      simp only [trackerRun, List.mem_append] at he
      rcases he with he | he
      · exact h1.2 e he
      · exact h2.2 e he

theorem trackerInit_reasonAbsent (r : RenderReason) : reasonAbsent r trackerInit := by
  refine ⟨fun x hx => ?_, fun i hi => ?_⟩
  · cases hx
  · cases hi

/-- C10: the classifier never produces `context-change`; its range is exactly
the five values initial, force-update, state-change, props-change,
parent-rerender, and consequently no event dispatched by a tracker run ever
carries reason `context-change`. -/
theorem classifier_range_five :
    (∀ (i f : Bool) (cp cs : List String),
      determineRenderReason i cp cs f ≠ .contextChange ∧
        (determineRenderReason i cp cs f = .initial ∨
         determineRenderReason i cp cs f = .forceUpdate ∨
         determineRenderReason i cp cs f = .stateChange ∨
         determineRenderReason i cp cs f = .propsChange ∨
         determineRenderReason i cp cs f = .parentRerender)) ∧
    (∀ (name : String) (steps : List TrackerStep) (e : RenderInfo),
      e ∈ (trackerRun name trackerInit steps).snd → e.reason ≠ .contextChange) := by
  constructor
  · intro i f cp cs
    refine ⟨determineRenderReason_ne_context i f cp cs, ?_⟩
    rcases i <;> rcases f <;> rcases cp <;> rcases cs <;> simp [determineRenderReason]
  · intro name steps e he
    exact (trackerRun_reasonAbsent rawReasonOf_ne_context name steps trackerInit
      (trackerInit_reasonAbsent _)).2 e he

/-- Witness for `classifier_range_five`: the event emitted by a concrete
mount-and-flush run does not carry reason `context-change`. -/
theorem classifier_range_five_witness :
    ({ id := 1, componentName := "W", renderCount := 1, reason := .initial,
       timestamp := 1, changedProps := [], changedState := [],
       propChanges := [], stateChanges := [] } : RenderInfo) ∈
        (trackerRun "W" trackerInit [TrackerStep.invoke none 1 1,
          TrackerStep.flushTimer]).snd ∧
      ({ id := 1, componentName := "W", renderCount := 1, reason := .initial,
         timestamp := 1, changedProps := [], changedState := [],
         propChanges := [], stateChanges := [] } : RenderInfo).reason ≠ .contextChange :=
  ⟨by decide, classifier_range_five.2 "W" [TrackerStep.invoke none 1 1,
    TrackerStep.flushTimer] _ (by decide)⟩

/-- Concrete deps used to exhibit that the entry point carries no
forced-update flag. -/
def c8deps : TrackableDeps :=
  { props := some [("name", Val.vStr "Alice")], state := none }

/-- C8, counterexample to the claim as stated: the entry point
`useRenderTracker(componentName, deps?)` has no forced parameter and calls the
classifier without its `forceUpdate` argument, so a non-initial invocation
with unchanged deps — precisely the case the spec says a forced invocation
turns into `force-update` — produces `parent-rerender`. -/
theorem forced_flag_counterexample :
    ((trackerRun "Child" trackerInit
        [TrackerStep.invoke (some c8deps) 1 10, TrackerStep.flushTimer,
         TrackerStep.closeCascadeWindow,
         TrackerStep.invoke (some c8deps) 2 20, TrackerStep.flushTimer]).snd.map
      RenderInfo.reason = [RenderReason.initial, RenderReason.parentRerender]) ∧
    RenderReason.parentRerender ≠ RenderReason.forceUpdate := by
  constructor
  · decide
  · decide

/-- C8, amended: the entry point passes no forced flag to the classifier, so
the raw classification of an invocation is never `force-update`, and no event
dispatched by any tracker run carries reason `force-update`. -/
theorem no_force_update_through_entry :
    (∀ (s : TrackerState) (d : Option TrackableDeps), rawReasonOf s d ≠ .forceUpdate) ∧
    (∀ (name : String) (steps : List TrackerStep) (e : RenderInfo),
      e ∈ (trackerRun name trackerInit steps).snd → e.reason ≠ .forceUpdate) := by
  refine ⟨rawReasonOf_ne_force, ?_⟩
  intro name steps e he
  exact (trackerRun_reasonAbsent rawReasonOf_ne_force name steps trackerInit
    (trackerInit_reasonAbsent _)).2 e he

/-- Witness for `no_force_update_through_entry` at a concrete run. -/
theorem no_force_update_through_entry_witness :
    ({ id := 2, componentName := "V", renderCount := 1, reason := .initial,
       timestamp := 5, changedProps := [], changedState := [],
       propChanges := [], stateChanges := [] } : RenderInfo) ∈
        (trackerRun "V" trackerInit [TrackerStep.invoke none 2 5,
          TrackerStep.flushTimer]).snd ∧
      ({ id := 2, componentName := "V", renderCount := 1, reason := .initial,
         timestamp := 5, changedProps := [], changedState := [],
         propChanges := [], stateChanges := [] } : RenderInfo).reason ≠ .forceUpdate :=
  ⟨by decide, no_force_update_through_entry.2 "V" [TrackerStep.invoke none 2 5,
    TrackerStep.flushTimer] _ (by decide)⟩

/-! ## The surfaced counter -/

theorem renderPhase_meaningfulCount (name : String) (deps : Option TrackableDeps)
    (eid ts : Nat) (s : TrackerState) :
    (renderPhase name deps eid ts s).fst.meaningfulCount = s.meaningfulCount := rfl

theorem effectPhase_meaningfulCount (s : TrackerState) (info : RenderInfo) :
    (effectPhase s info).meaningfulCount = s.meaningfulCount := by
  unfold effectPhase
  by_cases hb : s.dispatchInFlight && (info.reason == RenderReason.parentRerender)
  · rw [if_pos hb]
  · rw [if_neg hb]

theorem trackerStep_meaningful (name : String) (s : TrackerState) (st : TrackerStep) :
    (trackerStep name s st).fst.meaningfulCount
        = s.meaningfulCount + (trackerStep name s st).snd.length ∧
      (trackerStep name s st).snd.map RenderInfo.renderCount
        = List.range' (s.meaningfulCount + 1) (trackerStep name s st).snd.length := by
  cases st with
  | invoke deps eid ts =>
      refine ⟨?_, rfl⟩
      show (effectPhase (renderPhase name deps eid ts s).fst
        (renderPhase name deps eid ts s).snd).meaningfulCount = s.meaningfulCount + 0
      rw [effectPhase_meaningfulCount, renderPhase_meaningfulCount]
      omega
  | strictInvoke deps eid1 ts1 eid2 ts2 =>
      refine ⟨?_, rfl⟩
      show (effectPhase (renderPhase name deps eid2 ts2
          (renderPhase name deps eid1 ts1 s).fst).fst
        (renderPhase name deps eid2 ts2
          (renderPhase name deps eid1 ts1 s).fst).snd).meaningfulCount
        = s.meaningfulCount + 0
      rw [effectPhase_meaningfulCount, renderPhase_meaningfulCount,
        renderPhase_meaningfulCount]
      omega
  | flushTimer =>
      cases hp : s.pendingInfo with
      | none =>
          have he : trackerStep name s .flushTimer
              = ({ s with timerActive := false }, []) := by
            simp [trackerStep, timerFire_none hp]
          rw [he]
          exact ⟨rfl, rfl⟩
      | some info =>
          have he : trackerStep name s .flushTimer
              = ({ s with
                    timerActive := false
                    meaningfulCount := s.meaningfulCount + 1
                    pendingInfo := none },
                  [{ info with renderCount := s.meaningfulCount + 1 }]) := by
            simp [trackerStep, timerFire_some hp]
          rw [he]
          exact ⟨rfl, rfl⟩
  | closeCascadeWindow => exact ⟨rfl, rfl⟩

/-- C2: over any invocation sequence, the surfaced sequence counter is
non-decreasing, increases by exactly the number of surfaced events (so
cascade-filtered and superseded invocations, which surface nothing, do not
increment it), and successive surfaced events carry consecutive user-visible
render counts. -/
theorem surfaced_count_monotone_increment :
    ∀ (name : String) (steps : List TrackerStep) (s : TrackerState),
      (trackerRun name s steps).fst.meaningfulCount
          = s.meaningfulCount + (trackerRun name s steps).snd.length ∧
        (trackerRun name s steps).snd.map RenderInfo.renderCount
          = List.range' (s.meaningfulCount + 1) (trackerRun name s steps).snd.length ∧
        s.meaningfulCount ≤ (trackerRun name s steps).fst.meaningfulCount := by
  intro name steps
  induction steps with
  | nil =>
      intro s
      exact ⟨rfl, rfl, Nat.le_refl _⟩
  | cons st rest ih =>
      intro s
      have h1 := trackerStep_meaningful name s st
      have h2 := ih (trackerStep name s st).fst
      have hrun : trackerRun name s (st :: rest)
          = ((trackerRun name (trackerStep name s st).fst rest).fst,
             (trackerStep name s st).snd
               ++ (trackerRun name (trackerStep name s st).fst rest).snd) := rfl
      rw [hrun]
      refine ⟨?_, ?_, ?_⟩
      · rw [List.length_append, h2.1, h1.1]
        omega
      · rw [List.map_append, h1.2, h2.2.1, h1.1, List.length_append]
        have := List.range'_append_1 (s.meaningfulCount + 1)
          (trackerStep name s st).snd.length
          (trackerRun name (trackerStep name s st).fst rest).snd.length
        rw [show s.meaningfulCount + (trackerStep name s st).snd.length + 1
          = s.meaningfulCount + 1 + (trackerStep name s st).snd.length by omega]
        rw [this]
        rw [Nat.add_comm ((trackerRun name (trackerStep name s st).fst rest).snd.length)
          ((trackerStep name s st).snd.length)]
      · calc s.meaningfulCount
            ≤ (trackerStep name s st).fst.meaningfulCount := by rw [h1.1]; omega
          _ ≤ _ := h2.2.2

/-- C9: while the suppression gate is active, recording a render event updates
the per-unit tracking state (render history, render counts, per-reason
counts) exactly as it would with suppression inactive, in both store
variants; suppression itself is untouched by recording, the gate actions
touch nothing but the flag, and in the `lastRender`-gated variant a
suppressed recording leaves `lastRender` (the surfacing channel) unchanged. -/
theorem suppression_preserves_tracking_state :
    ∀ (info : RenderInfo) (s : SliceState) (b1 b2 : Bool),
      ((SliceA.recordRender info { s with suppressToasts := b1 }).renderHistory
        = (SliceA.recordRender info { s with suppressToasts := b2 }).renderHistory) ∧
      ((SliceA.recordRender info { s with suppressToasts := b1 }).renderCounts
        = (SliceA.recordRender info { s with suppressToasts := b2 }).renderCounts) ∧
      ((SliceA.recordRender info { s with suppressToasts := b1 }).renderCountsByReason
        = (SliceA.recordRender info { s with suppressToasts := b2 }).renderCountsByReason) ∧
      ((SliceB.recordRender info { s with suppressToasts := b1 }).renderHistory
        = (SliceB.recordRender info { s with suppressToasts := b2 }).renderHistory) ∧
      ((SliceB.recordRender info { s with suppressToasts := b1 }).renderCounts
        = (SliceB.recordRender info { s with suppressToasts := b2 }).renderCounts) ∧
      ((SliceB.recordRender info { s with suppressToasts := b1 }).renderCountsByReason
        = (SliceB.recordRender info { s with suppressToasts := b2 }).renderCountsByReason) ∧
      ((SliceB.recordRender info { s with suppressToasts := true }).lastRender
        = s.lastRender) ∧
      ((SliceA.recordRender info s).suppressToasts = s.suppressToasts) ∧
      ((SliceB.recordRender info s).suppressToasts = s.suppressToasts) ∧
      ((beginSuppressToasts s).renderHistory = s.renderHistory) ∧
      ((beginSuppressToasts s).renderCounts = s.renderCounts) ∧
      ((beginSuppressToasts s).renderCountsByReason = s.renderCountsByReason) ∧
      ((beginSuppressToasts s).lastRender = s.lastRender) ∧
      ((endSuppressToasts s).renderHistory = s.renderHistory) ∧
      ((endSuppressToasts s).renderCounts = s.renderCounts) ∧
      ((endSuppressToasts s).renderCountsByReason = s.renderCountsByReason) ∧
      ((endSuppressToasts s).lastRender = s.lastRender) := by
  intro info s b1 b2
  refine ⟨rfl, rfl, rfl, ?_, ?_, ?_, ?_, rfl, ?_, rfl, rfl, rfl, rfl, rfl, rfl, rfl, rfl⟩
  · cases b1 <;> cases b2 <;> rfl
  · cases b1 <;> cases b2 <;> rfl
  · cases b1 <;> cases b2 <;> rfl
  · rfl
  · unfold SliceB.recordRender
    split
    · rfl
    · rfl

/-- Event used to exhibit the suppression-window behavior. -/
def c5ev : RenderInfo :=
  { id := 3, componentName := "Counter", renderCount := 2, reason := .stateChange,
    timestamp := 50, changedProps := [], changedState := ["count"],
    propChanges := [], stateChanges := [] }

/-- C5, counterexample to the claim as stated: an event is buffered, the
suppression gate becomes active before the window closes and is released
again; at flush time the gate is off, so a notification IS emitted for the
buffered event, contradicting "becomes active at any point before the window
closes implies the entire pending buffer is dropped". -/
theorem suppression_window_counterexample :
    ((busRun busInit [BusStep.record c5ev, BusStep.beginSuppress, BusStep.endSuppress,
        BusStep.flush 400]).toastState.toasts.map Toast.renderInfo = [c5ev]) ∧
      [c5ev] ≠ ([] : List RenderInfo) := by
  constructor
  · decide
  · decide

/-- C5, amended: an event received while the gate is active is ignored
entirely (nothing buffered, nothing emitted), and suppression is re-checked
when the window closes: if the gate is active at flush time the entire
pending buffer is dropped silently, with no notification. -/
theorem suppression_drop_semantics :
    ∀ (info : RenderInfo) (now : Nat) (s : BusState),
      s.suppress = true →
      recordRenderEffect info s = s ∧
      (flushEffect now s).buffer = [] ∧
      (flushEffect now s).toastState = s.toastState := by
  intro info now s h
  refine ⟨?_, ?_, ?_⟩
  · unfold recordRenderEffect
    rw [h]
    simp
  · simp [flushEffect, h]
  · simp [flushEffect, h]

/-- Suppressed dispatcher state used for the witness. -/
def c5busState : BusState :=
  { buffer := [c5ev], timerActive := true, suppress := true, toastState := toastInit }

/-- Witness for `suppression_drop_semantics` at a concrete suppressed state. -/
theorem suppression_drop_semantics_witness :
    c5busState.suppress = true ∧
      (recordRenderEffect c5ev c5busState = c5busState ∧
        (flushEffect 700 c5busState).buffer = [] ∧
        (flushEffect 700 c5busState).toastState = c5busState.toastState) :=
  ⟨rfl, suppression_drop_semantics c5ev 700 c5busState rfl⟩

/-! ## Toast-queue helper lemmas -/

theorem mem_pushToast {t t2 : Toast} {s : ToastState}
    (h : t2 ∈ (pushToast t s).toasts) : t2 = t ∨ t2 ∈ s.toasts := by
  unfold pushToast at h
  by_cases hl : (t :: s.toasts).length > s.maxToasts
  · rw [if_pos hl] at h
    have h2 : t2 ∈ t :: s.toasts := List.take_subset _ _ h
    exact List.mem_cons.mp h2
  · rw [if_neg hl] at h
    exact List.mem_cons.mp h

theorem mem_addToast {now : Nat} {e : RenderInfo} {t2 : Toast} {s : ToastState}
    (h : t2 ∈ (addToast now e s).toasts) :
    (t2.renderInfo = e ∧ t2.batchRenders = none) ∨ t2 ∈ s.toasts := by
  rcases mem_pushToast h with h1 | h1
  · subst h1
    exact Or.inl ⟨rfl, rfl⟩
  · exact Or.inr h1

theorem mem_addBatchToast {now : Nat} {x : RenderInfo} {xs : List RenderInfo}
    {t2 : Toast} {s : ToastState}
    (h : t2 ∈ (addBatchToast now (x :: xs) s).toasts) :
    t2 = mkBatchToast now (x :: xs) ∨ t2 ∈ s.toasts := by
  unfold addBatchToast at h
  rw [if_neg (by simp)] at h
  exact mem_pushToast h

theorem sortByPriority_perm (l : List RenderInfo) :
    List.Perm (sortByPriority l) l :=
  List.perm_insertionSort reasonLE l

theorem mem_sortByPriority {e : RenderInfo} {l : List RenderInfo} :
    e ∈ sortByPriority l ↔ e ∈ l :=
  (sortByPriority_perm l).mem_iff

theorem sortByPriority_sorted (l : List RenderInfo) :
    List.Sorted reasonLE (sortByPriority l) :=
  List.sorted_insertionSort reasonLE l

theorem mkBatchToast_renderInfo (now : Nat) (renders : List RenderInfo) :
    (mkBatchToast now renders).renderInfo
      = (sortByPriority renders).headD defaultRenderInfo := rfl

theorem mkBatchToast_renderInfo_mem (now : Nat) (x : RenderInfo)
    (xs : List RenderInfo) : (mkBatchToast now (x :: xs)).renderInfo ∈ x :: xs := by
  cases hs : sortByPriority (x :: xs) with
  | nil =>
      exfalso
      have hlen := (sortByPriority_perm (x :: xs)).length_eq
      rw [hs] at hlen
      simp at hlen
  | cons h t =>
      have hmem : h ∈ sortByPriority (x :: xs) := by
        rw [hs]
        exact List.mem_cons_self _ _
      have hri : (mkBatchToast now (x :: xs)).renderInfo = h := by
        rw [mkBatchToast_renderInfo, hs]
        rfl
      rw [hri]
      exact mem_sortByPriority.mp hmem

theorem mkBatchToast_primary_min (now : Nat) (x : RenderInfo) (xs : List RenderInfo) :
    ∀ y ∈ x :: xs,
      REASON_PRIORITY (mkBatchToast now (x :: xs)).renderInfo.reason
        ≤ REASON_PRIORITY y.reason := by
  intro y hy
  cases hs : sortByPriority (x :: xs) with
  | nil =>
      exfalso
      have hlen := (sortByPriority_perm (x :: xs)).length_eq
      rw [hs] at hlen
      simp at hlen
  | cons h t =>
      have hri : (mkBatchToast now (x :: xs)).renderInfo = h := by
        rw [mkBatchToast_renderInfo, hs]
        rfl
      rw [hri]
      have hsorted := sortByPriority_sorted (x :: xs)
      rw [hs] at hsorted
      have hy2 : y ∈ sortByPriority (x :: xs) := mem_sortByPriority.mpr hy
      rw [hs] at hy2
      rcases List.mem_cons.mp hy2 with rfl | hy3
      · exact Nat.le_refl _
      · exact (List.sorted_cons.mp hsorted).1 y hy3

/-- A `parent-rerender` event arriving first in a batch. -/
def c3parent : RenderInfo :=
  { id := 11, componentName := "Parent", renderCount := 2, reason := .parentRerender,
    timestamp := 1, changedProps := [], changedState := [],
    propChanges := [], stateChanges := [] }

/-- A `state-change` event arriving second in the same batch. -/
def c3state : RenderInfo :=
  { id := 12, componentName := "Counter", renderCount := 3, reason := .stateChange,
    timestamp := 2, changedProps := [], changedState := ["count"],
    propChanges := [], stateChanges := [] }

/-- C3, counterexample to the claim as stated: for the arrival order
[parent-rerender, state-change], the stored `batchRenders` is the
priority-sorted list [state-change, parent-rerender], not the original
arrival order. -/
theorem batch_order_counterexample :
    ((addBatchToast 100 [c3parent, c3state] toastInit).toasts.map Toast.batchRenders
      = [some [c3state, c3parent]]) ∧
      ([c3state, c3parent] ≠ [c3parent, c3state]) := by
  constructor
  · decide
  · decide

/-- C3, amended: a batch of two or more events yields one prepended toast
whose primary event is an event of the batch with the highest causal priority
(smallest priority rank), and whose `batchRenders` holds all events of the
batch reordered by ascending reason priority — a permutation of the arrival
list, sorted, and stable in the sense that any arrival-ordered pair already
in priority order keeps its relative order. -/
theorem batch_primary_priority_sorted :
    ∀ (now : Nat) (x : RenderInfo) (xs : List RenderInfo) (s : ToastState),
      0 < s.maxToasts →
      ((addBatchToast now (x :: xs) s).toasts.head?
          = some (mkBatchToast now (x :: xs))) ∧
        (mkBatchToast now (x :: xs)).renderInfo ∈ x :: xs ∧
        (∀ y ∈ x :: xs,
          REASON_PRIORITY (mkBatchToast now (x :: xs)).renderInfo.reason
            ≤ REASON_PRIORITY y.reason) ∧
        (mkBatchToast now (x :: xs)).batchRenders
          = some (sortByPriority (x :: xs)) ∧
        List.Perm (sortByPriority (x :: xs)) (x :: xs) ∧
        List.Sorted reasonLE (sortByPriority (x :: xs)) ∧
        (∀ a b : RenderInfo, reasonLE a b → List.Sublist [a, b] (x :: xs) →
          List.Sublist [a, b] (sortByPriority (x :: xs))) := by
  intro now x xs s hmax
  refine ⟨?_, mkBatchToast_renderInfo_mem now x xs, mkBatchToast_primary_min now x xs,
    rfl, sortByPriority_perm (x :: xs), sortByPriority_sorted (x :: xs), ?_⟩
  · unfold addBatchToast
    rw [if_neg (by simp)]
    unfold pushToast
    by_cases hl : (mkBatchToast now (x :: xs) :: s.toasts).length > s.maxToasts
    · rw [if_pos hl]
      rcases Nat.exists_eq_succ_of_ne_zero (Nat.pos_iff_ne_zero.mp hmax) with ⟨k, hk⟩
      rw [show ({ s with
          toasts := (mkBatchToast now (x :: xs) :: s.toasts).take s.maxToasts }
            : ToastState).toasts
        = (mkBatchToast now (x :: xs) :: s.toasts).take s.maxToasts from rfl, hk,
        List.take_succ_cons]
      rfl
    · rw [if_neg hl]
      rfl
  · intro a b hab hsub
    exact List.pair_sublist_insertionSort hab hsub

/-- Witness for `batch_primary_priority_sorted` at a concrete batch. -/
theorem batch_primary_priority_sorted_witness :
    0 < toastInit.maxToasts ∧
      (((addBatchToast 100 (c3parent :: [c3state]) toastInit).toasts.head?
          = some (mkBatchToast 100 (c3parent :: [c3state]))) ∧
        (mkBatchToast 100 (c3parent :: [c3state])).renderInfo ∈ c3parent :: [c3state] ∧
        (∀ y ∈ c3parent :: [c3state],
          REASON_PRIORITY (mkBatchToast 100 (c3parent :: [c3state])).renderInfo.reason
            ≤ REASON_PRIORITY y.reason) ∧
        (mkBatchToast 100 (c3parent :: [c3state])).batchRenders
          = some (sortByPriority (c3parent :: [c3state])) ∧
        List.Perm (sortByPriority (c3parent :: [c3state])) (c3parent :: [c3state]) ∧
        List.Sorted reasonLE (sortByPriority (c3parent :: [c3state])) ∧
        (∀ a b : RenderInfo, reasonLE a b →
          List.Sublist [a, b] (c3parent :: [c3state]) →
          List.Sublist [a, b] (sortByPriority (c3parent :: [c3state])))) :=
  ⟨by decide, batch_primary_priority_sorted 100 c3parent [c3state] toastInit (by decide)⟩

/-! ## Initial-reason events never surface -/

/-- Neither the primary event nor any batch member of a toast has reason
`initial`. -/
def toastInitialFree (t : Toast) : Prop :=
  t.renderInfo.reason ≠ .initial ∧ ∀ e ∈ t.batchRenders.getD [], e.reason ≠ .initial

/-- Dispatcher invariant: no initial-reason event in the buffer, and every
toast is free of initial-reason events. -/
def busInitialFree (s : BusState) : Prop :=
  (∀ e ∈ s.buffer, e.reason ≠ .initial) ∧
  ∀ t ∈ s.toastState.toasts, toastInitialFree t

theorem busStep_initialFree {s : BusState} (h : busInitialFree s) (st : BusStep) :
    busInitialFree (busStep s st) := by
  cases st with
  | record info =>
      show busInitialFree (recordRenderEffect info s)
      unfold recordRenderEffect
      by_cases hb : info.reason == RenderReason.initial || s.suppress
      · rw [if_pos hb]
        exact h
      · rw [if_neg hb]
        have hini : info.reason ≠ .initial := by
          rcases Bool.or_eq_false_iff.mp (Bool.eq_false_iff.mpr hb) with ⟨h1, _⟩
          exact fun he => by rw [he] at h1; simp at h1
        refine ⟨?_, h.2⟩
        intro e he
        rcases List.mem_append.mp he with he1 | he1
        · exact h.1 e he1
        · rw [List.mem_singleton.mp he1]
          exact hini
  | flush now =>
      show busInitialFree (flushEffect now s)
      unfold flushEffect
      by_cases hsup : s.suppress
      · rw [if_pos hsup]
        refine ⟨by simp, h.2⟩
      · rw [if_neg hsup]
        cases hb : s.buffer with
        | nil => exact ⟨by simp, h.2⟩
        | cons e1 tl =>
            cases tl with
            | nil =>
                refine ⟨by simp, ?_⟩
                intro t ht
                rcases mem_addToast ht with ⟨hri, hbat⟩ | hold
                · refine ⟨?_, ?_⟩
                  · rw [hri]
                    exact h.1 e1 (by rw [hb]; exact List.mem_cons_self _ _)
                  · rw [hbat]
                    simp
                · exact h.2 t hold
            | cons e2 tl2 =>
                refine ⟨by simp, ?_⟩
                intro t ht
                rcases mem_addBatchToast ht with rfl | hold
                · refine ⟨?_, ?_⟩
                  · have hm := mkBatchToast_renderInfo_mem now e1 (e2 :: tl2)
                    exact h.1 _ (by rw [hb]; exact hm)
                  · intro e he
                    have hb2 : (mkBatchToast now (e1 :: e2 :: tl2)).batchRenders
                        = some (sortByPriority (e1 :: e2 :: tl2)) := rfl
                    rw [hb2] at he
                    simp only [Option.getD_some] at he
                    have hmem := mem_sortByPriority.mp he
                    exact h.1 e (by rw [hb]; exact hmem)
                · exact h.2 t hold
  | beginSuppress => exact ⟨h.1, h.2⟩
  | endSuppress => exact ⟨h.1, h.2⟩
  | remove tid =>
      refine ⟨h.1, ?_⟩
      intro t ht
      have ht2 : t ∈ s.toastState.toasts := List.mem_of_mem_filter ht
      exact h.2 t ht2
  | clearToasts =>
      refine ⟨h.1, ?_⟩
      intro t ht
      cases ht

theorem busRun_initialFree :
    ∀ (steps : List BusStep) (s : BusState), busInitialFree s →
      busInitialFree (busRun s steps) := by
  intro steps
  induction steps with
  | nil => intro s h; exact h
  | cons st rest ih =>
      intro s h
      exact ih (busStep s st) (busStep_initialFree h st)

/-- C6: over every sequence of dispatcher operations starting from the empty
dispatcher, no buffered event has reason `initial`, no toast's primary event
has reason `initial`, and no batch member has reason `initial` — initial
renders are filtered before entering the buffer and so never surface. -/
theorem initial_never_surfaced :
    ∀ (steps : List BusStep),
      (∀ e ∈ (busRun busInit steps).buffer, e.reason ≠ .initial) ∧
        ∀ t ∈ (busRun busInit steps).toastState.toasts,
          t.renderInfo.reason ≠ .initial ∧
            ∀ e ∈ t.batchRenders.getD [], e.reason ≠ .initial := by
  intro steps
  have h0 : busInitialFree busInit := by
    refine ⟨?_, ?_⟩
    · intro e he
      cases he
    · intro t ht
      cases ht
  exact busRun_initialFree steps busInit h0

/-- A non-initial event fed to the dispatcher for the C6 witness. -/
def c6ev : RenderInfo :=
  { id := 4, componentName := "Display", renderCount := 2, reason := .propsChange,
    timestamp := 60, changedProps := ["value"], changedState := [],
    propChanges := [], stateChanges := [] }

/-- The toast the dispatcher produces for `c6ev`. -/
def c6toast : Toast :=
  { tid := "toast-4", renderInfo := c6ev, batchRenders := none,
    isExpanded := false, createdAt := 400 }

/-- Witness for `initial_never_surfaced`: the toast produced by a concrete
non-initial event is initial-free. -/
theorem initial_never_surfaced_witness :
    (c6toast ∈ (busRun busInit [BusStep.record c6ev,
        BusStep.flush 400]).toastState.toasts) ∧
      (c6toast.renderInfo.reason ≠ .initial ∧
        ∀ e ∈ c6toast.batchRenders.getD [], e.reason ≠ .initial) :=
  ⟨by decide, (initial_never_surfaced [BusStep.record c6ev, BusStep.flush 400]).2 _
    (by decide)⟩

/-! ## Committed reason and double invocation -/

theorem renderPhase_prevDeps (name : String) (deps : Option TrackableDeps)
    (eid ts : Nat) (s : TrackerState) :
    (renderPhase name deps eid ts s).fst.prevDeps = deps := rfl

theorem renderPhase_renderCount (name : String) (deps : Option TrackableDeps)
    (eid ts : Nat) (s : TrackerState) :
    (renderPhase name deps eid ts s).fst.renderCount = s.renderCount + 1 := rfl

/-- After a render of deps `d`, re-rendering with the same deps classifies as
`parent-rerender`: the previous snapshot has been advanced, so no diff is
detected and the invocation is not initial. -/
theorem rawReasonOf_after_render (name : String) (deps : Option TrackableDeps)
    (eid ts : Nat) (s : TrackerState) :
    rawReasonOf (renderPhase name deps eid ts s).fst deps
      = RenderReason.parentRerender := by
  unfold rawReasonOf
  rw [renderPhase_prevDeps, renderPhase_renderCount,
    getChangedKeys_refl, getChangedKeys_refl]
  have hne : (s.renderCount + 1 + 1 == 1) = false := by
    simp only [beq_eq_false_iff_ne, ne_eq]
    omega
  rw [hne]
  rfl

/-- C1: on each invocation, the committed reason is overwritten with the
fresh classification exactly when the fresh classification is not
cascade-from-parent or no reason is committed yet, and kept otherwise; and a
double (StrictMode-style) replay of one invocation in one tick schedules
exactly one emission, which the timer flush surfaces with the
non-cascade-from-parent classification, a second flush surfacing nothing. -/
theorem committed_reason_overwrite_and_double_invoke :
    ∀ (name : String) (deps : Option TrackableDeps) (eid1 ts1 eid2 ts2 : Nat)
      (s : TrackerState),
      ((renderPhase name deps eid1 ts1 s).fst.committedReason
        = if rawReasonOf s deps ≠ RenderReason.parentRerender ∨ s.committedReason = none
          then some (rawReasonOf s deps) else s.committedReason) ∧
      (rawReasonOf s deps ≠ RenderReason.parentRerender →
        ((trackerStep name s (.strictInvoke deps eid1 ts1 eid2 ts2)).snd = [] ∧
          (trackerStep name
            (trackerStep name s (.strictInvoke deps eid1 ts1 eid2 ts2)).fst
            .flushTimer).snd.map RenderInfo.reason = [rawReasonOf s deps] ∧
          (trackerStep name
            (trackerStep name
              (trackerStep name s (.strictInvoke deps eid1 ts1 eid2 ts2)).fst
              .flushTimer).fst
            .flushTimer).snd = [])) := by
  intro name deps eid1 ts1 eid2 ts2 s
  constructor
  · rw [renderPhase_committedReason]
    by_cases h1 : rawReasonOf s deps = RenderReason.parentRerender <;>
      by_cases h2 : s.committedReason = none <;>
        simp [h1, h2]
  · intro h
    have hcr1 : (renderPhase name deps eid1 ts1 s).fst.committedReason
        = some (rawReasonOf s deps) := by
      have hb : (rawReasonOf s deps != RenderReason.parentRerender
          || (s.committedReason).isNone) = true := by
        simp [bne_iff_ne, h]
      rw [renderPhase_committedReason, if_pos hb]
    have hraw2 := rawReasonOf_after_render name deps eid1 ts1 s
    have hcr2 : (renderPhase name deps eid2 ts2
        (renderPhase name deps eid1 ts1 s).fst).fst.committedReason
        = some (rawReasonOf s deps) := by
      rw [renderPhase_committedReason]
      rw [if_neg]
      · exact hcr1
      · rw [hraw2, hcr1]
        simp
    have hreason2 : (renderPhase name deps eid2 ts2
        (renderPhase name deps eid1 ts1 s).fst).snd.reason
        = rawReasonOf s deps := by
      rw [renderPhase_reason, hcr2]
      rfl
    have heff : effectPhase
        (renderPhase name deps eid2 ts2 (renderPhase name deps eid1 ts1 s).fst).fst
        (renderPhase name deps eid2 ts2 (renderPhase name deps eid1 ts1 s).fst).snd
        = { (renderPhase name deps eid2 ts2
              (renderPhase name deps eid1 ts1 s).fst).fst with
            pendingInfo := some (renderPhase name deps eid2 ts2
              (renderPhase name deps eid1 ts1 s).fst).snd
            committedReason := none
            committedChanges := none
            timerActive := true
            dispatchInFlight := true } := by
      unfold effectPhase
      rw [if_neg]
      rw [hreason2]
      simp [h]
    have hstep : trackerStep name s (.strictInvoke deps eid1 ts1 eid2 ts2)
        = (effectPhase
            (renderPhase name deps eid2 ts2
              (renderPhase name deps eid1 ts1 s).fst).fst
            (renderPhase name deps eid2 ts2
              (renderPhase name deps eid1 ts1 s).fst).snd, []) := rfl
    refine ⟨by rw [hstep], ?_, ?_⟩
    · rw [hstep]
      have hpend : (effectPhase
          (renderPhase name deps eid2 ts2
            (renderPhase name deps eid1 ts1 s).fst).fst
          (renderPhase name deps eid2 ts2
            (renderPhase name deps eid1 ts1 s).fst).snd).pendingInfo
          = some (renderPhase name deps eid2 ts2
              (renderPhase name deps eid1 ts1 s).fst).snd := by
        rw [heff]
      show ((timerFire _).snd.toList).map RenderInfo.reason = [rawReasonOf s deps]
      rw [timerFire_some hpend]
      simp only [Option.toList_some, List.map_cons, List.map_nil]
      rw [show ({ (renderPhase name deps eid2 ts2
            (renderPhase name deps eid1 ts1 s).fst).snd with
          renderCount := (effectPhase
            (renderPhase name deps eid2 ts2
              (renderPhase name deps eid1 ts1 s).fst).fst
            (renderPhase name deps eid2 ts2
              (renderPhase name deps eid1 ts1 s).fst).snd).meaningfulCount + 1 }
            : RenderInfo).reason
        = (renderPhase name deps eid2 ts2
            (renderPhase name deps eid1 ts1 s).fst).snd.reason from rfl]
      rw [hreason2]
    · rw [hstep]
      have hpend : (effectPhase
          (renderPhase name deps eid2 ts2
            (renderPhase name deps eid1 ts1 s).fst).fst
          (renderPhase name deps eid2 ts2
            (renderPhase name deps eid1 ts1 s).fst).snd).pendingInfo
          = some (renderPhase name deps eid2 ts2
              (renderPhase name deps eid1 ts1 s).fst).snd := by
        rw [heff]
      show ((timerFire (timerFire _).fst).snd.toList) = []
      rw [timerFire_some hpend]
      rw [timerFire_none rfl]
      rfl

/-- Deps of a unit tracking one piece of state, used for the C1 witness. -/
def c1deps : TrackableDeps :=
  { props := none, state := some [("count", Val.vNum 0)] }

/-- Witness for `committed_reason_overwrite_and_double_invoke` at a concrete
double-invoked mount. -/
theorem committed_reason_overwrite_and_double_invoke_witness :
    rawReasonOf trackerInit (some c1deps) ≠ RenderReason.parentRerender ∧
      ((trackerStep "Counter" trackerInit
          (.strictInvoke (some c1deps) 1 10 2 11)).snd = [] ∧
        (trackerStep "Counter"
          (trackerStep "Counter" trackerInit
            (.strictInvoke (some c1deps) 1 10 2 11)).fst
          .flushTimer).snd.map RenderInfo.reason
            = [rawReasonOf trackerInit (some c1deps)] ∧
        (trackerStep "Counter"
          (trackerStep "Counter"
            (trackerStep "Counter" trackerInit
              (.strictInvoke (some c1deps) 1 10 2 11)).fst
            .flushTimer).fst
          .flushTimer).snd = []) :=
  ⟨by decide,
    (committed_reason_overwrite_and_double_invoke "Counter" (some c1deps)
      1 10 2 11 trackerInit).2 (by decide)⟩

end ReRender
